import Mathlib

/-!
# Verification of the lvnplus test-platform core

A shallow embedding, in Lean 4, of the question-distribution utility, the
question allocator (test-plan creation) and the test-execution state machine
of the `lvnplus-apiV2` repository, together with theorems settling the
specification's claims about them.

Conventions of the embedding:

* Identifiers and counts flowing through statically-typed service code are
  modelled as `Int`; JSON (de)serialization of the `test_data` column is
  abstracted away: `test_data` is modelled as structured data rather than
  a string, with the values stored in it exactly the ones serialization
  would produce (JSON numbers, strings, booleans, nulls — never BigInts).
* Dynamically-typed values inside the records are modelled by the small
  sum type `JsVal`, which distinguishes JavaScript Numbers from BigInts
  and from strings, booleans, `null` and `undefined`, so that JavaScript
  strict equality (`===`) is structural equality on `JsVal`; in
  particular a Number and a BigInt of the same value are not
  `===`-equal.
* Fallible operations return `Except AppError α`; database writes happen
  only on the `.ok` path, so "nothing persisted" is "returns `.error`".
* Randomness (the shuffle in `selectRandomQuestions`) is passed in as an
  explicit reordering function, constrained to be a permutation where a
  claim needs it.
-/

namespace Lvnplus

/-- The error taxonomy.  `validationError`, `unauthorizedError`,
`notFoundError` and `badRequestError` mirror the classes the services import
from `utils/errors` (the module itself is not in the sources; these four are
modelled from the spec's §7 taxonomy, carrying the message the service
passes).  `invalidStateError` and `insufficientQuestionsError` appear in the
spec's §7 taxonomy only — no source file constructs them — and are included
so that claims about them can be stated and settled.  `jsError` stands for
untyped JavaScript runtime errors (`throw new Error(...)`, `TypeError`). -/
inductive AppError where
  | validationError (msg : String)
  | unauthorizedError (msg : String)
  | notFoundError (msg : String)
  | badRequestError (msg : String)
  | invalidStateError (msg : String)
  | insufficientQuestionsError (found needed : Int)
  | jsError (msg : String)
deriving Repr, DecidableEq

/-- A dynamically-typed JavaScript value as it appears in the `test_data`
records.  Structural equality on `JsVal` coincides with JavaScript strict
equality `===` for these shapes: different runtime types are never
`===`-equal — in particular a Number (`num`) is never `===`-equal to a
BigInt (`big`) even when they denote the same integer, and `null` and
`undefined` are distinct.  JSON-parsed data (everything read back from the
`test_data` column) contains `num`/`str`/`bool`/`null` values only; `big`
values exist solely in typed service code (`BigInt(...)` conversions) and
never survive a JSON round trip. -/
inductive JsVal where
  | num (n : Int)
  | big (n : Int)
  | str (s : String)
  | bool (b : Bool)
  | null
  | undef
deriving Repr, DecidableEq

/-! ## `src/utils/questionDistribution.ts` -/

/-- Shallow embedding of `distributeQuestions(totalQuestions, levels = 3)`.
The returned `Record<number, number>` is modelled as the association list
`[(1, c₁), …, (L, c_L)]` in ascending key order (the order in which the
source's loop inserts the numeric keys, which is also JavaScript's
enumeration order for integer-like keys). -/
def distributeQuestions (totalQuestions : Int) (levels : Int := 3) :
    Except AppError (List (Int × Int)) :=
  if totalQuestions < 0 then
    .error (.jsError "Total questions must be a non-negative number")
  else
    let levels := max 1 (min levels 5)
    let questionsPerLevel := totalQuestions / levels
    let remainder := totalQuestions % levels
    .ok ((List.range levels.toNat).map (fun (j : Nat) =>
      let i : Int := (j : Int) + 1
      (i, questionsPerLevel + if i ≤ remainder then 1 else 0)))

/-- Shallow embedding of `validateQuestionDistribution(distribution)`. -/
def validateQuestionDistribution (distribution : List (Int × Int)) : Bool :=
  (distribution.all (fun kv => 1 ≤ kv.1 && kv.1 ≤ 5 && 0 ≤ kv.2)) &&
    0 < (distribution.map Prod.snd).sum

/-! ## The `test_data` records

The `test_data` column holds a JSON document with a `questions` array and a
`responses` array.  Two different record shapes occur in the sources (the
snapshot shape written at creation time with `question_id`/`student_answer`
keys, and the `{questionId, answer}` shape pushed by
`execution.service.ts`'s `submitAnswer`), so the record types below carry
every key that occurs, each `JsVal`-typed and defaulting to `undefined`. -/

/-- One entry of a question's parsed `options` array. -/
structure AnswerOption where
  option_text : String
  is_correct : Bool
deriving Repr, DecidableEq

/-- A question record inside `test_data.questions`. -/
structure QuesRec where
  question_id : JsVal := .undef
  subtopic_id : JsVal := .undef
  question_text : JsVal := .undef
  options : List AnswerOption := []
  difficulty_level : JsVal := .undef
  correct_answer : JsVal := .undef
deriving Repr, DecidableEq

/-- A response record inside `test_data.responses`. -/
structure RespRec where
  question_id : JsVal := .undef
  questionId : JsVal := .undef
  student_answer : JsVal := .undef
  answer : JsVal := .undef
  is_correct : JsVal := .undef
  time_spent : JsVal := .undef
  timeSpent : JsVal := .undef
deriving Repr, DecidableEq

/-- The parsed `test_data` document.  Both services' `TestData` interfaces
declare the two arrays as always present, so they are plain lists here. -/
structure TestData where
  questions : List QuesRec := []
  responses : List RespRec := []
  /-- `timingData.endTime`, stamped by the bulk submit; the rest of the
  timing metadata is carried along unchanged and not modelled. -/
  timingData_endTime : Option Int := none
deriving Repr, DecidableEq

/-- The `status` column of `test_executions`. -/
inductive ExecStatus where
  | NOT_STARTED
  | IN_PROGRESS
  | PAUSED
  | COMPLETED
  | ABANDONED
deriving Repr, DecidableEq

/-- A plan's user relation as returned by the ORM: sometimes a single
record, sometimes a collection.  Only the `user_id` fields matter here. -/
inductive UserRel where
  | single (user_id : Int)
  | collection (user_ids : List Int)
deriving Repr, DecidableEq

/-- The slice of a `test_plans` row the execution service reads. -/
structure PlanRec where
  test_plan_id : Int
  student_rel : UserRel
  planner_rel : UserRel
deriving Repr, DecidableEq

/-- A `test_executions` row joined with its plan
(`ExecutionWithPlan` in `execution.service.ts`). -/
structure ExecutionWithPlan where
  execution_id : Int
  test_plan_id : Int
  status : ExecStatus
  started_at : Option Int := none
  paused_at : Option Int := none
  completed_at : Option Int := none
  score : Option Int := none
  test_data : TestData
  test_plans : PlanRec
deriving Repr, DecidableEq

/-! ## `src/services/execution.service.ts` (the service under `src/`) -/

/-- JavaScript's `Math.round`: round half toward positive infinity,
`⌊x + 1/2⌋`. -/
def jsRound (x : ℚ) : Int := ⌊x + 1 / 2⌋

/-- Models `Array.isArray(rel) ? rel.map(u => u.user_id) : []`, the shape
handling inside `findExecutionWithAccess`: a single (non-array) record
yields the empty list. -/
def arrayUserIds : UserRel → List Int
  | .collection user_ids => user_ids
  | .single _ => []

/-- `TestExecutionService.findExecutionWithAccess`.  The `prisma.findUnique`
result is passed in as an `Option` (`none` models a missing row). -/
def findExecutionWithAccess (execution : Option ExecutionWithPlan) (userId : Int) :
    Except AppError ExecutionWithPlan :=
  match execution with
  | none => .error (.notFoundError "Test execution not found")
  | some execution =>
    let studentIds := arrayUserIds execution.test_plans.student_rel
    let plannedByIds := arrayUserIds execution.test_plans.planner_rel
    if !(studentIds.contains userId) && !(plannedByIds.contains userId) then
      .error (.unauthorizedError "Unauthorized access to test execution")
    else
      .ok execution

/-- `TestExecutionService.startExecution`.  `now` stands for `new Date()`. -/
def startExecution (execution : Option ExecutionWithPlan) (userId : Int) (now : Int) :
    Except AppError ExecutionWithPlan := do
  let execution ← findExecutionWithAccess execution userId
  if execution.status ≠ .NOT_STARTED then
    throw (.validationError "Test has already been started")
  return { execution with status := .IN_PROGRESS, started_at := some now }

/-- The `response` payload of `UpdateExecutionDTO`. -/
structure ExecResponseDTO where
  questionId : Int
  answer : String
  timeSpent : Int
deriving Repr, DecidableEq

/-- `TestExecutionService.submitAnswer` of `execution.service.ts`: pushes
the incoming `{questionId, answer, timeSpent}` record onto
`testData.responses`. -/
def submitAnswer (execution : Option ExecutionWithPlan) (userId : Int)
    (response : ExecResponseDTO) : Except AppError ExecutionWithPlan := do
  let execution ← findExecutionWithAccess execution userId
  if execution.status ≠ .IN_PROGRESS then
    throw (.validationError "Test is not in progress")
  let testData := execution.test_data
  let testData := { testData with responses := testData.responses ++
    [{ questionId := .num response.questionId, answer := .str response.answer,
       timeSpent := .num response.timeSpent }] }
  return { execution with test_data := testData }

/-- `TestExecutionService.calculateScore` of `execution.service.ts`.  The
JSON parse is abstracted; the `!testData.questions || !testData.responses`
guard cannot fire because the embedded `TestData` always carries both
arrays, as the service's own `TestData` interface declares. -/
def calculateScore (testData : TestData) : Int :=
  let totalQuestions := testData.questions.length
  if totalQuestions = 0 then 0
  else
    let correctAnswers := (testData.responses.filter (fun response =>
      match testData.questions.find? (fun q => q.question_id == response.questionId) with
      | some question => question.correct_answer == response.answer
      | none => false)).length
    jsRound ((correctAnswers : ℚ) / (totalQuestions : ℚ) * 100)

/-- `TestExecutionService.completeExecution` of `execution.service.ts`. -/
def completeExecution (execution : Option ExecutionWithPlan) (userId : Int) (now : Int) :
    Except AppError ExecutionWithPlan := do
  let execution ← findExecutionWithAccess execution userId
  if execution.status ≠ .IN_PROGRESS then
    throw (.validationError "Test is not in progress")
  let score := calculateScore execution.test_data
  return { execution with status := .COMPLETED, completed_at := some now,
                          score := some score }

/-- `TestExecutionService.pauseExecution`. -/
def pauseExecution (execution : Option ExecutionWithPlan) (userId : Int) (now : Int) :
    Except AppError ExecutionWithPlan := do
  let execution ← findExecutionWithAccess execution userId
  if execution.status ≠ .IN_PROGRESS then
    throw (.validationError "Test is not in progress")
  return { execution with status := .PAUSED, paused_at := some now }

/-- `TestExecutionService.resumeExecution`. -/
def resumeExecution (execution : Option ExecutionWithPlan) (userId : Int) :
    Except AppError ExecutionWithPlan := do
  let execution ← findExecutionWithAccess execution userId
  if execution.status ≠ .PAUSED then
    throw (.validationError "Test is not paused")
  return { execution with status := .IN_PROGRESS, paused_at := none }

/-! ## The second `TestExecutionService` (namespace `V2`)

The repository carries a second, richer version of the execution service
(among the unnamed source files) with `safeBigInt` identity normalization,
a slot-updating `submitAnswer`, a three-message `completeExecution` and a
bulk `submitAllAnswers`.  It is embedded below under the namespace `V2`. -/

/-- A raw identifier as `safeBigInt` accepts it:
`bigint | string | undefined`. -/
inductive BigIntInput where
  | big (n : Int)
  | str (s : String)
  | undef
deriving Repr, DecidableEq

/-- JavaScript `String.prototype.trim`, modelled over the character list
(ASCII whitespace; the exotic Unicode space classes JavaScript also trims
do not occur in any claim).  Defined from lists because Lean's built-in
`String.trim` does not reduce inside the kernel. -/
def jsTrim (s : String) : String :=
  String.mk (((s.toList.dropWhile Char.isWhitespace).reverse.dropWhile
    Char.isWhitespace).reverse)

/-- JavaScript `String.prototype.startsWith`, modelled over character
lists. -/
def jsStartsWith (s pre : String) : Bool :=
  pre.toList.isPrefixOf s.toList

/-- Decimal digit parsing used to model `BigInt(string)`. -/
def parseDigits? (cs : List Char) : Option Nat :=
  if cs.isEmpty then none
  else cs.foldl (fun acc c =>
    acc.bind (fun n => if c.isDigit then some (10 * n + (c.toNat - '0'.toNat)) else none))
    (some 0)

/-- Models the JavaScript `BigInt(string)` conversion on decimal input: the
string is trimmed, an optional sign is followed by one or more digits;
anything else throws (`none`).  (Hex/octal/binary prefixes are not
modelled; no claim exercises them.)  The whitespace-only string, which
JavaScript maps to `0n`, never reaches this conversion in `safeBigInt`
because of the empty-trim guard there. -/
def parseBigInt? (s : String) : Option Int :=
  match (jsTrim s).toList with
  | '-' :: rest => (parseDigits? rest).map (fun n => -(n : Int))
  | '+' :: rest => (parseDigits? rest).map (fun n => (n : Int))
  | cs => (parseDigits? cs).map (fun n => (n : Int))

/-- JavaScript `x || d` for an optionally-present number `x`: the default
is taken when `x` is absent or `0` (falsy). -/
def jsOrElse (x : Option Int) (d : Int) : Int :=
  match x with
  | some t => if t = 0 then d else t
  | none => d

namespace V2

/-- `TestExecutionService.safeBigInt(value, defaultValue = BigInt(0))`.
An `undefined` input returns the default; an empty-trim string throws; a
parse failure throws; a parsed `0` throws unless the string was exactly
`"0"`; a native bigint is returned as is (the `result === 0n && value !==
'0' && value !== 0n` guard can never fire for it).  All throws surface as
`ValidationError` with the interpolated input. -/
def safeBigInt (value : BigIntInput) (defaultValue : Int := 0) : Except AppError Int :=
  match value with
  | .undef => .ok defaultValue
  | .str s =>
    if jsTrim s = "" then .error (.validationError s!"Invalid execution ID: {s}")
    else
      match parseBigInt? s with
      | none => .error (.validationError s!"Invalid execution ID: {s}")
      | some result =>
        if result == 0 && s != "0" then
          .error (.validationError s!"Invalid execution ID: {s}")
        else .ok result
  | .big n => .ok n

/-- A `test_executions` row as this service reads it (its access check
assumes a `user_id` field on the row). -/
structure Execution where
  execution_id : Int
  test_plan_id : Int
  user_id : Int
  status : ExecStatus
  started_at : Option Int := none
  paused_at : Option Int := none
  completed_at : Option Int := none
  score : Option Int := none
  test_data : TestData
deriving Repr, DecidableEq

/-- `TestExecutionService.findTestExecutionWithAccess`: `NotFoundError`
when the row is missing, `UnauthorizedError` when the row's `user_id`
differs from the caller (the `prisma.count` over
`execution_id ∧ user_id` is `0` exactly then). -/
def findTestExecutionWithAccess (executionId userId : Int)
    (execution : Option Execution) : Except AppError Execution :=
  match execution with
  | none => .error (.notFoundError s!"Test execution not found for ID: {executionId}")
  | some execution =>
    if execution.user_id ≠ userId then
      .error (.unauthorizedError "User does not have access to this test execution")
    else
      .ok execution

/-- `TestExecutionService.checkAnswer(options, studentAnswer)`: exact
string comparison against the text of the option flagged correct. -/
def checkAnswer (options : List AnswerOption) (studentAnswer : String) : Bool :=
  match options.find? (fun opt => opt.is_correct) with
  | some correctOption => studentAnswer == correctOption.option_text
  | none => false

/-- `TestExecutionService.determineExecutionStatus(responses)`: `COMPLETED`
once every response's `student_answer` is not `null`. -/
def determineExecutionStatus (responses : List RespRec) : ExecStatus :=
  if responses.all (fun resp => resp.student_answer ≠ .null) then .COMPLETED
  else .IN_PROGRESS

/-- The `UpdateTestExecutionDTO` fields `submitAnswer` reads (the interface
itself is not among the sources; the fields are those the service
dereferences). -/
structure UpdateTestExecutionDTO where
  question_id : BigIntInput
  student_answer : String
  time_spent : Option Int := none
deriving Repr, DecidableEq

/-- `TestExecutionService.submitAnswer` of the `V2` service: finds the
response slot with `resp.question_id === safeQuestionId`, rewrites exactly
that slot (answer, correctness from the options of the question at the
same index, `time_spent || 0`), recomputes the status with
`determineExecutionStatus`, and fails with `NotFoundError` when no slot
matches.  `safeQuestionId` is the *BigInt* produced by `safeBigInt`
(`JsVal.big`), while `resp.question_id` is a JSON-parsed value, so the
strict equality can only succeed on a slot that somehow holds a BigInt —
which no JSON-parsed snapshot does; see the C6 theorem below.  An index
with no corresponding question would crash dereferencing
`undefined.options`. -/
def submitAnswer (executionId userId : BigIntInput) (execution : Option Execution)
    (updateData : UpdateTestExecutionDTO) : Except AppError Execution := do
  let safeExecutionId ← safeBigInt executionId
  let safeUserId ← safeBigInt userId
  let safeQuestionId ← safeBigInt updateData.question_id
  let execution ← findTestExecutionWithAccess safeExecutionId safeUserId execution
  let testData := execution.test_data
  let questions := testData.questions
  let responses := testData.responses
  match responses.findIdx? (fun resp => resp.question_id == JsVal.big safeQuestionId) with
  | none => throw (.notFoundError "Question not found in the test execution")
  | some questionIndex =>
    match questions[questionIndex]? with
    | none => throw (.jsError "TypeError: Cannot read properties of undefined (reading options)")
    | some question =>
      let updatedResponses := responses.mapIdx (fun i resp =>
        if i = questionIndex then
          { resp with
            student_answer := .str updateData.student_answer,
            is_correct := .bool (checkAnswer question.options updateData.student_answer),
            time_spent := .num (jsOrElse updateData.time_spent 0) }
        else resp)
      return { execution with
        test_data := { testData with responses := updatedResponses },
        status := determineExecutionStatus updatedResponses }

/-- `TestExecutionService.completeExecution` of the `V2` service: three
distinct precondition messages.  On the remaining statuses the call
`this.calculateScore(execution)` runs the class's *second* `calculateScore`
declaration (the later duplicate shadows the earlier one) with its `tx`
parameter `undefined`, and crashes dereferencing `tx.test_executions`. -/
def completeExecution (executionId userId : BigIntInput)
    (execution : Option Execution) : Except AppError Execution := do
  let safeExecutionId ← safeBigInt executionId
  let safeUserId ← safeBigInt userId
  let execution ← findTestExecutionWithAccess safeExecutionId safeUserId execution
  if execution.status = .NOT_STARTED then
    throw (.validationError "Cannot complete test. Test must be started first. Please click \"Start Test\" before attempting to complete the test.")
  if execution.status = .COMPLETED then
    throw (.validationError "Cannot complete test. Test has already been completed.")
  if execution.status = .PAUSED then
    throw (.validationError "Cannot complete test while it is paused. Please resume the test first.")
  throw (.jsError "TypeError: Cannot read properties of undefined (reading test_executions)")

/-- One element of `SubmitAllAnswersDTO.responses` (the interface is not
among the sources; the fields are those the service reads). -/
structure SubmitAnswerItem where
  questionId : Int
  answer : String
  timeTaken : Int
deriving Repr, DecidableEq

/-- `Number(v)` on the JavaScript values that occur in `question_id`
fields; `none` models `NaN`, which compares unequal to everything
(`Number` converts a BigInt to the Number of the same value). -/
def jsToNumber : JsVal → Option Int
  | .num n => some n
  | .big n => some n
  | .str s => if jsTrim s = "" then some 0 else parseBigInt? s
  | .bool b => some (if b then 1 else 0)
  | .null => some 0
  | .undef => none

/-- `TestExecutionService.submitAllAnswers` of the `V2` service.  `now`
stands for `Date.now()`; a missing `responses` array is conflated with an
empty one (both fail the same guard). -/
def submitAllAnswers (executionId userId : Int) (execution : Option Execution)
    (responses : List SubmitAnswerItem) (endTime : Option Int) (now : Int) :
    Except AppError Execution := do
  let execution ← findTestExecutionWithAccess executionId userId execution
  if execution.status ≠ .IN_PROGRESS then
    throw (.validationError "Cannot submit answers. Test must be started first. Please click \"Start Test\" before submitting answers.")
  if responses.isEmpty then
    throw (.validationError "No answers to submit")
  let invalidResponses := responses.filter (fun r => r.questionId == 0 || r.answer == "")
  if !invalidResponses.isEmpty then
    throw (.validationError "Invalid response structure. Each response must have questionId, answer, and timeTaken.")
  let testData := execution.test_data
  let updatedResponses := testData.responses.map (fun existingResponse =>
    match responses.find? (fun r =>
      match jsToNumber existingResponse.question_id with
      | some k => r.questionId == k
      | none => false) with
    | some submittedResponse =>
      { existingResponse with
        student_answer := .str submittedResponse.answer,
        time_spent := .num (jsOrElse (some submittedResponse.timeTaken) 0) }
    | none => existingResponse)
  let updatedTestData := { testData with
    responses := updatedResponses,
    timingData_endTime := some (jsOrElse endTime now) }
  return { execution with test_data := updatedTestData }

end V2

/-! ## `src/services/testPlan.service.ts` and the question pool -/

/-- A row of the `questions` table as the allocator reads it.  The
`options` column is a JSON string in the database; it is carried here
already parsed (the snapshot builder parses it with `JSON.parse`). -/
structure PoolQuestion where
  question_id : Int
  subtopic_id : Int
  question_text : String
  options : List AnswerOption
  difficulty_level : Int
  active : Bool := true
deriving Repr, DecidableEq

/-- `QuestionService.filterQuestions` restricted to the filters the
allocator passes: `active: true` always, then a difficulty filter and an
optional subtopic filter, each applied only when truthy (a `0` value sets
no filter, as in the source), then `skip`/`take` pagination.  The pool
list stands for the table in the query's `created_at desc` order. -/
def filterQuestions (pool : List PoolQuestion) (difficulty : Int) (limit : Nat)
    (offset : Nat) (subtopicId : Option Int) : List PoolQuestion :=
  ((pool.filter (fun q =>
      q.active
      && (match subtopicId with
          | some s => if s = 0 then true else q.subtopic_id == s
          | none => true)
      && (if difficulty = 0 then true else q.difficulty_level == difficulty))).drop
    offset).take limit

/-- Lookup in the `difficultyMap` table of `createTestPlan`
(`EASY→1, MEDIUM→2, HARD→3`, numeric strings `1`–`5` pass through). -/
def difficultyMapLookup : String → Option Int
  | "EASY" => some 1
  | "MEDIUM" => some 2
  | "HARD" => some 3
  | "1" => some 1
  | "2" => some 2
  | "3" => some 3
  | "4" => some 4
  | "5" => some 5
  | _ => none

/-- JavaScript record lookup `m[k]` (an absent key is `undefined`). -/
def getKV (m : List (String × Int)) (k : String) : Option Int :=
  (m.find? (fun kv => kv.1 == k)).map (fun kv => kv.2)

/-- JavaScript record assignment `m[k] = v` (overwrite or append). -/
def setKV (m : List (String × Int)) (k : String) (v : Int) : List (String × Int) :=
  if m.any (fun kv => kv.1 == k) then
    m.map (fun kv => if kv.1 == k then (k, v) else kv)
  else
    m ++ [(k, v)]

/-- The `questionCounts` resolution block of `createTestPlan`: first match
wins among the topic-keyed, difficulty-keyed and default-even-split
interpretations of the raw counts record. -/
def resolveQuestionCounts (topicIds : List Int) (questionCounts : List (String × Int)) :
    List (String × Int) :=
  if questionCounts.any (fun kv =>
      jsStartsWith kv.1 "topic_" || topicIds.any (fun id => toString id == kv.1)) then
    topicIds.foldl (fun acc topicId =>
      let topicKey := "topic_" ++ toString topicId
      let count := jsOrElse (getKV questionCounts topicKey)
        (jsOrElse (getKV questionCounts (toString topicId)) 0)
      setKV acc (toString topicId) count) []
  else if questionCounts.any (fun kv =>
      kv.1 == "EASY" || kv.1 == "MEDIUM" || kv.1 == "HARD") then
    questionCounts.foldl (fun acc kv =>
      let mappedKey := match difficultyMapLookup kv.1 with
        | some n => toString n
        | none => kv.1
      setKV acc mappedKey kv.2) []
  else
    let totalQuestions := (questionCounts.map Prod.snd).sum
    let questionsPerDifficulty := totalQuestions / 3
    let remainingQuestions := totalQuestions % 3
    (List.range 3).foldl (fun acc index =>
      setKV acc (toString ((index : Int) + 1))
        (questionsPerDifficulty + if (index : Int) < remainingQuestions then 1 else 0)) []

/-- `TestPlanService.selectQuestions`: distributes the *raw* total over the
default 3 difficulty tiers, validates the distribution, and fetches each
bucket (`limit = count`, `offset = 0`, the first configured subtopic if
any) from the question service. -/
def selectQuestions (pool : List PoolQuestion) (questionCounts : List (String × Int))
    (subtopics : List Int) : Except AppError (List PoolQuestion) := do
  let totalQuestions := (questionCounts.map Prod.snd).sum
  let questionDistribution ← distributeQuestions totalQuestions
  if !(validateQuestionDistribution questionDistribution) then
    throw (.validationError "Invalid question distribution")
  let questionResults := questionDistribution.foldl (fun acc kv =>
    acc ++ filterQuestions pool kv.1 kv.2.toNat 0 subtopics.head?) []
  return questionResults

/-- `TestPlanService.selectRandomQuestions`: shuffle, then take the first
`count`.  The shuffle (`sort(() => 0.5 - Math.random())`) is passed in as
an explicit reordering function standing for the random choices. -/
def selectRandomQuestions (shuffle : List PoolQuestion → List PoolQuestion)
    (questions : List PoolQuestion) (count : Nat) : List PoolQuestion :=
  (shuffle questions).take count

/-- The slice of `CreateTestPlanDTO.configuration` the allocator reads.
`questionCounts` arrives as a JSON record with string keys. -/
structure TestPlanConfig where
  topics : List Int
  subtopics : List Int
  questionCounts : List (String × Int)
deriving Repr, DecidableEq

/-- What `createTestPlan` persists on success: the stored configuration's
resolved counts and the seeded execution row.  (Identifier bookkeeping,
timing metadata and the response formatting are not modelled.)  Nothing is
persisted on the `.error` path: both `prisma.create` calls come after
every guard. -/
structure CreatedPlan where
  questionCounts : List (String × Int)
  execution_status : ExecStatus
  execution_test_data : TestData
deriving Repr, DecidableEq

/-- `TestPlanService.createTestPlan`: resolves the counts, selects the
questions, aborts with `ValidationError` if fewer were found than the
resolved total, then seeds the plan's execution with the snapshot and one
null-answer response per snapshot question. -/
def createTestPlan (shuffle : List PoolQuestion → List PoolQuestion)
    (pool : List PoolQuestion) (data : TestPlanConfig) : Except AppError CreatedPlan := do
  let topicIds := data.topics
  let questionCounts := resolveQuestionCounts topicIds data.questionCounts
  let totalQuestions := (questionCounts.map Prod.snd).sum
  let selectedQuestions ← selectQuestions pool data.questionCounts data.subtopics
  let found := selectedQuestions.length
  if (found : Int) < totalQuestions then
    throw (.validationError s!"Not enough questions available. Found {found}, needed {totalQuestions}")
  let randomQuestions := selectRandomQuestions shuffle selectedQuestions totalQuestions.toNat
  return { questionCounts := questionCounts,
           execution_status := .NOT_STARTED,
           execution_test_data := {
             questions := randomQuestions.map (fun q =>
               { question_id := .num q.question_id,
                 subtopic_id := .num q.subtopic_id,
                 question_text := .str q.question_text,
                 options := q.options,
                 difficulty_level := .num q.difficulty_level }),
             responses := randomQuestions.map (fun q =>
               { question_id := .num q.question_id,
                 student_answer := .null,
                 is_correct := .null,
                 time_spent := .num 0 }) } }

/-! # Theorems -/

/-- **C1.**  For every `total ≥ 0` and every `tierCount ∈ [1,5]`,
`distributeQuestions` returns a mapping whose keys are exactly
`1..tierCount` in ascending order, whose values are all `≥ 0` and sum
exactly to `total`, and in which tier `i` receives
`⌊total/tierCount⌋ + 1` when `i ≤ total % tierCount` and
`⌊total/tierCount⌋` otherwise; in particular
`distribute(13,3) = {1:5, 2:4, 3:4}`,
`distribute(10,5) = {1:2, 2:2, 3:2, 4:2, 5:2}` and
`distribute(17,5) = {1:4, 2:4, 3:3, 4:3, 5:3}`. -/
theorem distributeQuestions_spec (total tierCount : Int)
    (htot : 0 ≤ total) (h1 : 1 ≤ tierCount) (h5 : tierCount ≤ 5) :
    (∃ d, distributeQuestions total tierCount = .ok d ∧
      d.map Prod.fst = (List.range tierCount.toNat).map (fun (j : Nat) => (j : Int) + 1) ∧
      (∀ kv ∈ d, 0 ≤ kv.2) ∧
      (d.map Prod.snd).sum = total ∧
      (∀ kv ∈ d, kv.2 = total / tierCount + if kv.1 ≤ total % tierCount then 1 else 0)) ∧
    distributeQuestions 13 3 = .ok [(1, 5), (2, 4), (3, 4)] ∧
    distributeQuestions 10 5 = .ok [(1, 2), (2, 2), (3, 2), (4, 2), (5, 2)] ∧
    distributeQuestions 17 5 = .ok [(1, 4), (2, 4), (3, 3), (4, 3), (5, 3)] := by
  refine ⟨?_, by rfl, by rfl, by rfl⟩
  have hclamp : max 1 (min tierCount 5) = tierCount := by omega
  refine ⟨(List.range tierCount.toNat).map (fun (j : Nat) =>
      ((j : Int) + 1, total / tierCount + if (j : Int) + 1 ≤ total % tierCount then 1 else 0)),
      ?_, ?_, ?_, ?_, ?_⟩
  · unfold distributeQuestions
    rw [if_neg (show ¬ total < 0 by omega), hclamp]
  · simp [List.map_map]
  · simp only [List.mem_map]
    rintro kv ⟨j, hj, rfl⟩
    have : 0 ≤ total / tierCount := Int.ediv_nonneg htot (by omega)
    dsimp only
    split <;> omega
  · simp only [List.map_map]
    interval_cases tierCount
    · rw [show List.range (Int.toNat 1) = [0] by rfl]
      simp only [List.map_cons, List.map_nil, List.sum_cons, List.sum_nil, Function.comp_apply]
      push_cast
      split_ifs <;> omega
    · rw [show List.range (Int.toNat 2) = [0, 1] by rfl]
      simp only [List.map_cons, List.map_nil, List.sum_cons, List.sum_nil, Function.comp_apply]
      push_cast
      split_ifs <;> omega
    · rw [show List.range (Int.toNat 3) = [0, 1, 2] by rfl]
      simp only [List.map_cons, List.map_nil, List.sum_cons, List.sum_nil, Function.comp_apply]
      push_cast
      split_ifs <;> omega
    · rw [show List.range (Int.toNat 4) = [0, 1, 2, 3] by rfl]
      simp only [List.map_cons, List.map_nil, List.sum_cons, List.sum_nil, Function.comp_apply]
      push_cast
      split_ifs <;> omega
    · rw [show List.range (Int.toNat 5) = [0, 1, 2, 3, 4] by rfl]
      simp only [List.map_cons, List.map_nil, List.sum_cons, List.sum_nil, Function.comp_apply]
      push_cast
      split_ifs <;> omega
  · simp only [List.mem_map]
    rintro kv ⟨j, hj, rfl⟩
    rfl

/-- Witness for C1 at the concrete input `(13, 3)`. -/
theorem distributeQuestions_spec_witness :
    distributeQuestions 13 3 = .ok [(1, 5), (2, 4), (3, 4)] :=
  (distributeQuestions_spec 13 3 (by norm_num) (by norm_num) (by norm_num)).2.1

/-- Spec-side count for the scoring claim: the number of responses whose
`answer` matches the recorded `correct_answer` of the snapshot question
with the same identifier. -/
def correctCount (td : TestData) : Nat :=
  (td.responses.filter (fun r =>
    match td.questions.find? (fun q => q.question_id == r.questionId) with
    | some q => q.correct_answer == r.answer
    | none => false)).length

/-- `calculateScore` is the claimed rounding formula (with the
mathematical `round`, which agrees with JavaScript `Math.round` on
halves), guarded by the zero-question case. -/
theorem calculateScore_eq (td : TestData) :
    calculateScore td = if td.questions.length = 0 then 0
      else round ((100 * (correctCount td : ℚ)) / (td.questions.length : ℚ)) := by
  by_cases h : td.questions.length = 0
  · simp [calculateScore, h]
  · simp only [calculateScore, correctCount, jsRound, h, if_neg, not_false_iff]
    rw [round_eq]
    congr 1
    ring

/-- **C2.**  For every execution in status `IN_PROGRESS` (with access
granted), `complete` succeeds and sets
`score = round(100 * correctCount / totalQuestions)` where
`totalQuestions` is the snapshot's question count and `correctCount` the
number of responses whose answer matches the snapshot's correct answer
for that question; a snapshot with `0` questions yields `score = 0`
rather than a division error. -/
theorem completeExecution_score (e : ExecutionWithPlan) (userId now : Int)
    (hacc : findExecutionWithAccess (some e) userId = .ok e)
    (hst : e.status = .IN_PROGRESS) :
    ∃ e', completeExecution (some e) userId now = .ok e' ∧
      e'.status = .COMPLETED ∧ e'.completed_at = some now ∧
      (e.test_data.questions.length = 0 → e'.score = some 0) ∧
      (0 < e.test_data.questions.length →
        e'.score = some (round ((100 * (correctCount e.test_data : ℚ)) /
          (e.test_data.questions.length : ℚ)))) := by
  refine ⟨{ e with
      status := ExecStatus.COMPLETED,
      completed_at := some now,
      score := some (calculateScore e.test_data) }, ?_, rfl, rfl, ?_, ?_⟩
  · unfold completeExecution
    rw [hacc]
    simp [hst, bind, Except.bind, pure, Except.pure]
  · intro h0
    simp [calculateScore_eq, h0]
  · intro hpos
    simp [calculateScore_eq, Nat.pos_iff_ne_zero.mp hpos]

/-- A 4-question execution with 3 correct responses, the claim's scoring
scenario. -/
def scoreDemoExec : ExecutionWithPlan :=
  { execution_id := 1, test_plan_id := 1, status := .IN_PROGRESS,
    test_data :=
      { questions := [
          { question_id := .str "q1", correct_answer := .str "A" },
          { question_id := .str "q2", correct_answer := .str "B" },
          { question_id := .str "q3", correct_answer := .str "C" },
          { question_id := .str "q4", correct_answer := .str "D" }],
        responses := [
          { questionId := .str "q1", answer := .str "A" },
          { questionId := .str "q2", answer := .str "B" },
          { questionId := .str "q3", answer := .str "C" },
          { questionId := .str "q4", answer := .str "X" }] },
    test_plans := { test_plan_id := 1, student_rel := .collection [7],
                    planner_rel := .collection [9] } }

/-- An execution whose snapshot has no questions at all. -/
def scoreDemoExecZero : ExecutionWithPlan :=
  { execution_id := 2, test_plan_id := 1, status := .IN_PROGRESS,
    test_data := { questions := [], responses := [] },
    test_plans := { test_plan_id := 1, student_rel := .collection [7],
                    planner_rel := .collection [9] } }

/-- Witness for C2: 3 correct out of 4 scores 75, and the zero-question
execution completes with score 0. -/
theorem completeExecution_score_witness :
    (∃ e', completeExecution (some scoreDemoExec) 7 100 = .ok e' ∧ e'.score = some 75) ∧
    (∃ z, completeExecution (some scoreDemoExecZero) 7 100 = .ok z ∧ z.score = some 0) := by
  constructor
  · obtain ⟨e', hrun, -, -, -, hscore⟩ := completeExecution_score scoreDemoExec 7 100 rfl rfl
    refine ⟨e', hrun, ?_⟩
    rw [hscore (by decide)]
    have h3 : correctCount scoreDemoExec.test_data = 3 := rfl
    have h4 : scoreDemoExec.test_data.questions.length = 4 := rfl
    rw [h3, h4]
    norm_num [round_eq]
  · obtain ⟨z, hrun, -, -, h0, -⟩ := completeExecution_score scoreDemoExecZero 7 100 rfl rfl
    exact ⟨z, hrun, h0 rfl⟩

/-- A plan whose student is user 7 and whose planner is user 9. -/
def c3Plan : PlanRec :=
  { test_plan_id := 1, student_rel := .collection [7], planner_rel := .collection [9] }

/-- A paused execution of that plan. -/
def c3Paused : ExecutionWithPlan :=
  { execution_id := 3, test_plan_id := 1, status := .PAUSED,
    test_data := {}, test_plans := c3Plan }

/-- A not-yet-started execution of that plan. -/
def c3NotStarted : ExecutionWithPlan :=
  { execution_id := 4, test_plan_id := 1, status := .NOT_STARTED,
    test_data := {}, test_plans := c3Plan }

/-- A paused execution as the `V2` service reads it, owned by user 11. -/
def c3V2Paused : V2.Execution :=
  { execution_id := 5, test_plan_id := 2, user_id := 11, status := .PAUSED,
    test_data := {} }

/-- **C3 (counterexample).**  `completeExecution` on a `PAUSED` execution
and on a `NOT_STARTED` execution both fail with the *same*
`ValidationError "Test is not in progress"`: the error is a
`ValidationError` (no `InvalidStateError` class exists in the code), and
its message does not distinguish 'paused' from 'not started'. -/
theorem completeExecution_generic_message :
    completeExecution (some c3Paused) 7 100 =
      .error (.validationError "Test is not in progress") ∧
    completeExecution (some c3NotStarted) 7 100 =
      .error (.validationError "Test is not in progress") := ⟨rfl, rfl⟩

/-- **C3 (amended).**  Every (state, operation) pair not allowed by the
state machine is rejected, but with a `ValidationError`: the service under
`src/` uses one fixed message per operation ('Test has already been
started' / 'Test is not in progress' / 'Test is not paused') regardless of
which wrong state the execution is in, and only the `V2` service's
`completeExecution` (and its `submitAllAnswers` guard) distinguishes 'not
started' vs 'already completed' vs 'paused'. -/
theorem stateMachine_rejects_illegal_ops (e : ExecutionWithPlan) (userId now : Int)
    (resp : ExecResponseDTO)
    (hacc : findExecutionWithAccess (some e) userId = .ok e)
    (v : V2.Execution) (eid uid : Int) (hv : v.user_id = uid)
    (items : List V2.SubmitAnswerItem) (endTime : Option Int) :
    (e.status ≠ .NOT_STARTED →
      startExecution (some e) userId now =
        .error (.validationError "Test has already been started")) ∧
    (e.status ≠ .IN_PROGRESS →
      submitAnswer (some e) userId resp =
        .error (.validationError "Test is not in progress")) ∧
    (e.status ≠ .IN_PROGRESS →
      pauseExecution (some e) userId now =
        .error (.validationError "Test is not in progress")) ∧
    (e.status ≠ .IN_PROGRESS →
      completeExecution (some e) userId now =
        .error (.validationError "Test is not in progress")) ∧
    (e.status ≠ .PAUSED →
      resumeExecution (some e) userId =
        .error (.validationError "Test is not paused")) ∧
    (v.status = .NOT_STARTED →
      V2.completeExecution (.big eid) (.big uid) (some v) =
        .error (.validationError "Cannot complete test. Test must be started first. Please click \"Start Test\" before attempting to complete the test.")) ∧
    (v.status = .COMPLETED →
      V2.completeExecution (.big eid) (.big uid) (some v) =
        .error (.validationError "Cannot complete test. Test has already been completed.")) ∧
    (v.status = .PAUSED →
      V2.completeExecution (.big eid) (.big uid) (some v) =
        .error (.validationError "Cannot complete test while it is paused. Please resume the test first.")) ∧
    (v.status ≠ .IN_PROGRESS →
      V2.submitAllAnswers eid uid (some v) items endTime now =
        .error (.validationError "Cannot submit answers. Test must be started first. Please click \"Start Test\" before submitting answers.")) := by
  refine ⟨?_, ?_, ?_, ?_, ?_, ?_, ?_, ?_, ?_⟩ <;> intro h
  · unfold startExecution
    rw [hacc]
    simp [h, bind, Except.bind, Pure.pure, Except.pure, throw, throwThe, MonadExcept.throw,
      Functor.map, Except.map]
  · unfold submitAnswer
    rw [hacc]
    simp [h, bind, Except.bind, Pure.pure, Except.pure, throw, throwThe, MonadExcept.throw,
      Functor.map, Except.map]
  · unfold pauseExecution
    rw [hacc]
    simp [h, bind, Except.bind, Pure.pure, Except.pure, throw, throwThe, MonadExcept.throw,
      Functor.map, Except.map]
  · unfold completeExecution
    rw [hacc]
    simp [h, bind, Except.bind, Pure.pure, Except.pure, throw, throwThe, MonadExcept.throw,
      Functor.map, Except.map]
  · unfold resumeExecution
    rw [hacc]
    simp [h, bind, Except.bind, Pure.pure, Except.pure, throw, throwThe, MonadExcept.throw,
      Functor.map, Except.map]
  · unfold V2.completeExecution V2.safeBigInt V2.findTestExecutionWithAccess
    simp [h, hv, bind, Except.bind, Pure.pure, Except.pure, throw, throwThe, MonadExcept.throw,
      Functor.map, Except.map]
  · unfold V2.completeExecution V2.safeBigInt V2.findTestExecutionWithAccess
    simp [h, hv, bind, Except.bind, Pure.pure, Except.pure, throw, throwThe, MonadExcept.throw,
      Functor.map, Except.map]
  · unfold V2.completeExecution V2.safeBigInt V2.findTestExecutionWithAccess
    simp [h, hv, bind, Except.bind, Pure.pure, Except.pure, throw, throwThe, MonadExcept.throw,
      Functor.map, Except.map]
  · unfold V2.submitAllAnswers V2.findTestExecutionWithAccess
    simp [h, hv, bind, Except.bind, Pure.pure, Except.pure, throw, throwThe, MonadExcept.throw,
      Functor.map, Except.map]

/-- Witness for C3 (amended): `start` on a paused execution and the `V2`
`complete` on a paused execution, with their concrete messages. -/
theorem stateMachine_rejects_illegal_ops_witness :
    startExecution (some c3Paused) 7 100 =
      .error (.validationError "Test has already been started") ∧
    V2.completeExecution (.big 5) (.big 11) (some c3V2Paused) =
      .error (.validationError "Cannot complete test while it is paused. Please resume the test first.") := by
  obtain ⟨h1, -, -, -, -, -, -, h8, -⟩ :=
    stateMachine_rejects_illegal_ops c3Paused 7 100 ⟨1, "A", 0⟩ rfl c3V2Paused 5 11 rfl [] none
  exact ⟨h1 (by decide), h8 rfl⟩

/-- An execution whose plan's user relations arrive as *single* records:
user 7 is the plan's student, user 9 its planner. -/
def c9SingleExec : ExecutionWithPlan :=
  { execution_id := 6, test_plan_id := 3, status := .NOT_STARTED,
    test_data := {},
    test_plans := { test_plan_id := 3, student_rel := .single 7,
                    planner_rel := .single 9 } }

/-- An execution of the same plan with collection-shaped relations. -/
def c9CollExec : ExecutionWithPlan :=
  { execution_id := 7, test_plan_id := 3, status := .NOT_STARTED,
    test_data := {},
    test_plans := { test_plan_id := 3, student_rel := .collection [7],
                    planner_rel := .collection [9] } }

/-- **C9 (counterexample).**  The access check does *not* tolerate a
single-record user relation: user 7 is the plan's assigned student (the
relation arrived as a single record), yet `start` raises
`UnauthorizedError`. -/
theorem accessCheck_single_record_denied :
    c9SingleExec.test_plans.student_rel = .single 7 ∧
    startExecution (some c9SingleExec) 7 100 =
      .error (.unauthorizedError "Unauthorized access to test execution") := ⟨rfl, rfl⟩

/-- **C9 (amended).**  For every state-changing execution operation, the
operation raises `UnauthorizedError` exactly when the actor is in neither
of the identifier lists the check computes — and those lists are taken
only from collection-shaped relations (`Array.isArray`), a single-record
relation contributing no authorized identities. -/
theorem accessCheck_collection_only (e : ExecutionWithPlan) (userId now : Int)
    (resp : ExecResponseDTO) :
    (userId ∉ arrayUserIds e.test_plans.student_rel ∧
     userId ∉ arrayUserIds e.test_plans.planner_rel →
      startExecution (some e) userId now =
        .error (.unauthorizedError "Unauthorized access to test execution") ∧
      submitAnswer (some e) userId resp =
        .error (.unauthorizedError "Unauthorized access to test execution") ∧
      pauseExecution (some e) userId now =
        .error (.unauthorizedError "Unauthorized access to test execution") ∧
      resumeExecution (some e) userId =
        .error (.unauthorizedError "Unauthorized access to test execution") ∧
      completeExecution (some e) userId now =
        .error (.unauthorizedError "Unauthorized access to test execution")) ∧
    (userId ∈ arrayUserIds e.test_plans.student_rel ∨
     userId ∈ arrayUserIds e.test_plans.planner_rel →
      ∀ msg,
        startExecution (some e) userId now ≠ .error (.unauthorizedError msg) ∧
        submitAnswer (some e) userId resp ≠ .error (.unauthorizedError msg) ∧
        pauseExecution (some e) userId now ≠ .error (.unauthorizedError msg) ∧
        resumeExecution (some e) userId ≠ .error (.unauthorizedError msg) ∧
        completeExecution (some e) userId now ≠ .error (.unauthorizedError msg)) := by
  constructor
  · rintro ⟨hs, hp⟩
    have hden : findExecutionWithAccess (some e) userId =
        .error (.unauthorizedError "Unauthorized access to test execution") := by
      unfold findExecutionWithAccess
      simp [hs, hp]
    refine ⟨?_, ?_, ?_, ?_, ?_⟩
    · unfold startExecution
      rw [hden]
      simp [bind, Except.bind, Functor.map, Except.map]
    · unfold submitAnswer
      rw [hden]
      simp [bind, Except.bind, Functor.map, Except.map]
    · unfold pauseExecution
      rw [hden]
      simp [bind, Except.bind, Functor.map, Except.map]
    · unfold resumeExecution
      rw [hden]
      simp [bind, Except.bind, Functor.map, Except.map]
    · unfold completeExecution
      rw [hden]
      simp [bind, Except.bind, Functor.map, Except.map]
  · intro hmem msg
    have hok : findExecutionWithAccess (some e) userId = .ok e := by
      unfold findExecutionWithAccess
      rcases hmem with hm | hm <;> simp [hm]
    refine ⟨?_, ?_, ?_, ?_, ?_⟩
    · unfold startExecution
      rw [hok]
      simp only [bind, Except.bind, Pure.pure, Except.pure, throw, throwThe, MonadExcept.throw,
        Functor.map, Except.map]
      split <;> simp
    · unfold submitAnswer
      rw [hok]
      simp only [bind, Except.bind, Pure.pure, Except.pure, throw, throwThe, MonadExcept.throw,
        Functor.map, Except.map]
      split <;> simp
    · unfold pauseExecution
      rw [hok]
      simp only [bind, Except.bind, Pure.pure, Except.pure, throw, throwThe, MonadExcept.throw,
        Functor.map, Except.map]
      split <;> simp
    · unfold resumeExecution
      rw [hok]
      simp only [bind, Except.bind, Pure.pure, Except.pure, throw, throwThe, MonadExcept.throw,
        Functor.map, Except.map]
      split <;> simp
    · unfold completeExecution
      rw [hok]
      simp only [bind, Except.bind, Pure.pure, Except.pure, throw, throwThe, MonadExcept.throw,
        Functor.map, Except.map]
      split <;> simp

/-- Witness for C9 (amended): outsider 12 is denied, the collection-shaped
student 7 is not denied. -/
theorem accessCheck_collection_only_witness :
    startExecution (some c9CollExec) 12 100 =
      .error (.unauthorizedError "Unauthorized access to test execution") ∧
    startExecution (some c9CollExec) 7 100 ≠
      .error (.unauthorizedError "Unauthorized access to test execution") := by
  have h1 := (accessCheck_collection_only c9CollExec 12 100 ⟨1, "A", 0⟩).1
    ⟨by decide, by decide⟩
  have h2 := (accessCheck_collection_only c9CollExec 7 100 ⟨1, "A", 0⟩).2
    (Or.inl (by decide)) "Unauthorized access to test execution"
  exact ⟨h1.1, h2.1⟩

/-- A string with empty trim cannot parse as a bigint. -/
theorem parseBigInt?_of_trim_empty (s : String) (h : jsTrim s = "") :
    parseBigInt? s = none := by
  unfold parseBigInt?
  rw [h]
  rfl

/-- **C8 (counterexample).**  `safeBigInt` silently coerces `undefined` to
the zero default instead of raising `ValidationError`; and the numeric
string `"00"`, denoting the same value as the native bigint `0`, raises
while the bigint does not. -/
theorem safeBigInt_undef_is_zero_default :
    V2.safeBigInt .undef = .ok 0 ∧
    V2.safeBigInt (.str "00") = .error (.validationError "Invalid execution ID: 00") ∧
    V2.safeBigInt (.big 0) = .ok 0 := ⟨rfl, rfl, rfl⟩

/-- **C8 (amended).**  `safeBigInt` raises `ValidationError` on
empty-trim strings and on unparseable strings, but an `undefined` input
silently returns the caller's default (`0`); a numeric string and a
native bigint denoting the same nonzero value normalize to that same
bigint, the literal `"0"` and the bigint `0` both normalize to `0`, and
the signature accepts no native-number input at all. -/
theorem safeBigInt_spec :
    (∀ d, V2.safeBigInt .undef d = .ok d) ∧
    (∀ s, jsTrim s = "" →
      V2.safeBigInt (.str s) = .error (.validationError s!"Invalid execution ID: {s}")) ∧
    (∀ s, jsTrim s ≠ "" → parseBigInt? s = none →
      V2.safeBigInt (.str s) = .error (.validationError s!"Invalid execution ID: {s}")) ∧
    (∀ s n, parseBigInt? s = some n → n ≠ 0 →
      V2.safeBigInt (.str s) = .ok n ∧ V2.safeBigInt (.big n) = .ok n) ∧
    (V2.safeBigInt (.str "0") = .ok 0 ∧ V2.safeBigInt (.big 0) = .ok 0) := by
  refine ⟨fun d => rfl, ?_, ?_, ?_, rfl, rfl⟩
  · intro s h
    unfold V2.safeBigInt
    dsimp only
    rw [if_pos h]
  · intro s htrim hparse
    unfold V2.safeBigInt
    dsimp only
    rw [if_neg htrim, hparse]
  · intro s n hparse hn
    have htrim : jsTrim s ≠ "" := by
      intro h
      rw [parseBigInt?_of_trim_empty s h] at hparse
      exact Option.noConfusion hparse
    constructor
    · unfold V2.safeBigInt
      dsimp only
      rw [if_neg htrim, hparse]
      have hb : (n == 0 && s != "0") = false := by
        simp [hn]
      dsimp only
      rw [hb]
      rfl
    · rfl

/-- Witness for C8 (amended): the string `"123"` and the bigint `123`
normalize identically, and the empty string raises. -/
theorem safeBigInt_spec_witness :
    V2.safeBigInt (.str "123") = .ok 123 ∧ V2.safeBigInt (.big 123) = .ok 123 ∧
    V2.safeBigInt (.str "") = .error (.validationError "Invalid execution ID: ") := by
  obtain ⟨-, hempty, -, hsome, -⟩ := safeBigInt_spec
  obtain ⟨h1, h2⟩ := hsome "123" 123 rfl (by norm_num)
  refine ⟨h1, h2, ?_⟩
  have h := hempty "" rfl
  simpa using h

/-- A two-question `V2` execution owned by user 7, its snapshot exactly as
a JSON round trip leaves it: question identifiers stored as the JSON
numbers creation writes (`Number(q.question_id)`), never as BigInts. -/
def c6Exec : V2.Execution :=
  { execution_id := 10, test_plan_id := 4, user_id := 7, status := .IN_PROGRESS,
    test_data :=
      { questions := [
          { question_id := .num 1,
            options := [⟨"A", false⟩, ⟨"B", true⟩] },
          { question_id := .num 2,
            options := [⟨"C", true⟩] }],
        responses := [
          { question_id := .num 1, student_answer := .null, is_correct := .null,
            time_spent := .null },
          { question_id := .num 2, student_answer := .null, is_correct := .null,
            time_spent := .null }] } }

/-- **C6 (code bug).**  The `V2` `submitAnswer` looks up the response slot
with `resp.question_id === safeQuestionId`, comparing a JSON-parsed
*Number* against the *BigInt* that `safeBigInt` produces.  JavaScript
strict equality between a Number and a BigInt is always false, so the
lookup fails even for a question that *is* in the execution's snapshot
and the claimed slot update never happens: question 1 is present below
(stored as the number `1`, exactly as creation stores it), `safeBigInt`
normalizes the submitted identifier `"1"` to the bigint `1`, and the call
raises `NotFoundError` — likewise when the identifier already arrives as
a bigint.  The spec's described behaviour (update exactly that slot) is
clearly the intent of the surrounding code (`checkAnswer`, the slot
rewrite) and the type confusion a slip. -/
theorem submitAnswerV2_never_finds_question :
    c6Exec.test_data.responses.map (fun r => r.question_id) = [.num 1, .num 2] ∧
    V2.safeBigInt (.str "1") = .ok 1 ∧
    V2.submitAnswer (.big 10) (.big 7) (some c6Exec)
      { question_id := .str "1", student_answer := "B", time_spent := some 30 } =
      .error (.notFoundError "Question not found in the test execution") ∧
    V2.submitAnswer (.big 10) (.big 7) (some c6Exec)
      { question_id := .big 1, student_answer := "B", time_spent := some 30 } =
      .error (.notFoundError "Question not found in the test execution") :=
  ⟨rfl, rfl, rfl, rfl⟩

/-- A one-question pool for the invariant claim. -/
def c7Pool : List PoolQuestion :=
  [{ question_id := 1, subtopic_id := 1, question_text := "t",
     options := [⟨"A", true⟩], difficulty_level := 1 }]

/-- A configuration requesting that one question. -/
def c7Config : TestPlanConfig :=
  { topics := [], subtopics := [], questionCounts := [("EASY", 1)] }

/-- What `createTestPlan` produces for `c7Pool`/`c7Config` (checked by
`rfl` below). -/
def c7Created : CreatedPlan :=
  { questionCounts := [("1", 1)],
    execution_status := .NOT_STARTED,
    execution_test_data :=
      { questions := [
          { question_id := .num 1,
            subtopic_id := .num 1,
            question_text := .str "t",
            options := [⟨"A", true⟩],
            difficulty_level := .num 1 }],
        responses := [
          { question_id := .num 1,
            student_answer := .null,
            is_correct := .null,
            time_spent := .num 0 }] } }

example : createTestPlan (fun l => l) c7Pool c7Config = .ok c7Created := rfl

/-- The created execution as a row the execution service reads. -/
def c7Exec0 : ExecutionWithPlan :=
  { execution_id := 1, test_plan_id := 1, status := .NOT_STARTED,
    test_data := c7Created.execution_test_data,
    test_plans := { test_plan_id := 1, student_rel := .collection [7],
                    planner_rel := .collection [9] } }

/-- `c7Exec0` after `start`. -/
def c7Exec1 : ExecutionWithPlan :=
  { c7Exec0 with status := .IN_PROGRESS, started_at := some 50 }

/-- `c7Exec1` after one `submitAnswer` push. -/
def c7Exec2 : ExecutionWithPlan :=
  { c7Exec1 with
    test_data :=
      { c7Exec1.test_data with
        responses := c7Exec1.test_data.responses ++
          [{ questionId := .num 1, answer := .str "A", timeSpent := .num 5 }] } }

/-- **C7 (counterexample).**  A reachable state violates
`responses.length == questions.length`: creation seeds a 1-question
execution with one response slot, `start` preserves it, but one
`submitAnswer` call *pushes* a new `{questionId, answer}` record instead
of updating the slot, leaving 2 responses over 1 question. -/
theorem submitAnswer_appends_response :
    createTestPlan (fun l => l) c7Pool c7Config = .ok c7Created ∧
    c7Created.execution_test_data.responses.length =
      c7Created.execution_test_data.questions.length ∧
    startExecution (some c7Exec0) 7 50 = .ok c7Exec1 ∧
    submitAnswer (some c7Exec1) 7 ⟨1, "A", 5⟩ = .ok c7Exec2 ∧
    c7Exec2.test_data.responses.length = 2 ∧
    c7Exec2.test_data.questions.length = 1 := by
  exact ⟨rfl, rfl, rfl, rfl, rfl, rfl⟩

/-- helper: a successful access check returns the row unchanged. -/
theorem findExecutionWithAccess_ok {e x : ExecutionWithPlan} {uid : Int}
    (h : findExecutionWithAccess (some e) uid = .ok x) : x = e := by
  unfold findExecutionWithAccess at h
  dsimp only at h
  split at h
  · exact Except.noConfusion h
  · exact (Except.ok.inj h).symm

/-- **C7 (amended).**  At creation the execution has exactly one response
per snapshot question, keyed 1:1 by question identifier with null
`student_answer` and null `is_correct`; `start`, `pause`, `resume` and
`complete` leave `test_data` unchanged, and the `V2` service's
`submitAnswer` and `submitAllAnswers` preserve `responses.length` — but
`execution.service.ts`'s `submitAnswer` appends a response record,
growing `responses.length` by one per call and breaking the invariant. -/
theorem responses_invariant_amended :
    (∀ shuffle pool data plan,
      createTestPlan shuffle pool data = .ok plan →
      plan.execution_test_data.responses.map (fun r => r.question_id) =
        plan.execution_test_data.questions.map (fun q => q.question_id) ∧
      plan.execution_test_data.responses.length =
        plan.execution_test_data.questions.length ∧
      ∀ r ∈ plan.execution_test_data.responses,
        r.student_answer = .null ∧ r.is_correct = .null) ∧
    (∀ e uid now e', startExecution (some e) uid now = .ok e' →
      e'.test_data = e.test_data) ∧
    (∀ e uid now e', pauseExecution (some e) uid now = .ok e' →
      e'.test_data = e.test_data) ∧
    (∀ e uid e', resumeExecution (some e) uid = .ok e' →
      e'.test_data = e.test_data) ∧
    (∀ e uid now e', completeExecution (some e) uid now = .ok e' →
      e'.test_data = e.test_data) ∧
    (∀ e uid resp e', submitAnswer (some e) uid resp = .ok e' →
      e'.test_data.responses.length = e.test_data.responses.length + 1 ∧
      e'.test_data.questions = e.test_data.questions) ∧
    (∀ eidu uidu v upd v', V2.submitAnswer eidu uidu (some v) upd = .ok v' →
      v'.test_data.responses.length = v.test_data.responses.length ∧
      v'.test_data.questions = v.test_data.questions) ∧
    (∀ eid uid v items endTime now v',
      V2.submitAllAnswers eid uid (some v) items endTime now = .ok v' →
      v'.test_data.responses.length = v.test_data.responses.length ∧
      v'.test_data.questions = v.test_data.questions) := by
  refine ⟨?_, ?_, ?_, ?_, ?_, ?_, ?_, ?_⟩
  · intro shuffle pool data plan h
    unfold createTestPlan at h
    rcases hsel : selectQuestions pool data.questionCounts data.subtopics with er | l
    · rw [hsel] at h
      simp [bind, Except.bind] at h
    · rw [hsel] at h
      simp only [bind, Except.bind, Pure.pure, Except.pure, throw, throwThe,
        MonadExcept.throw, MonadExceptOf.throw] at h
      split at h
      · exact Except.noConfusion h
      · obtain rfl := (Except.ok.inj h).symm
        refine ⟨?_, ?_, ?_⟩
        · simp [List.map_map]
        · simp
        · intro r hr
          simp only [List.mem_map] at hr
          obtain ⟨q, -, rfl⟩ := hr
          exact ⟨rfl, rfl⟩
  · intro e uid now e' h
    unfold startExecution at h
    rcases hfa : findExecutionWithAccess (some e) uid with er | x <;> rw [hfa] at h
    · simp [bind, Except.bind] at h
    · obtain rfl := findExecutionWithAccess_ok hfa
      simp only [bind, Except.bind, Pure.pure, Except.pure, throw, throwThe,
        MonadExcept.throw, MonadExceptOf.throw, Functor.map, Except.map] at h
      split at h
      · exact Except.noConfusion h
      · obtain rfl := (Except.ok.inj h).symm
        rfl
  · intro e uid now e' h
    unfold pauseExecution at h
    rcases hfa : findExecutionWithAccess (some e) uid with er | x <;> rw [hfa] at h
    · simp [bind, Except.bind] at h
    · obtain rfl := findExecutionWithAccess_ok hfa
      simp only [bind, Except.bind, Pure.pure, Except.pure, throw, throwThe,
        MonadExcept.throw, MonadExceptOf.throw, Functor.map, Except.map] at h
      split at h
      · exact Except.noConfusion h
      · obtain rfl := (Except.ok.inj h).symm
        rfl
  · intro e uid e' h
    unfold resumeExecution at h
    rcases hfa : findExecutionWithAccess (some e) uid with er | x <;> rw [hfa] at h
    · simp [bind, Except.bind] at h
    · obtain rfl := findExecutionWithAccess_ok hfa
      simp only [bind, Except.bind, Pure.pure, Except.pure, throw, throwThe,
        MonadExcept.throw, MonadExceptOf.throw, Functor.map, Except.map] at h
      split at h
      · exact Except.noConfusion h
      · obtain rfl := (Except.ok.inj h).symm
        rfl
  · intro e uid now e' h
    unfold completeExecution at h
    rcases hfa : findExecutionWithAccess (some e) uid with er | x <;> rw [hfa] at h
    · simp [bind, Except.bind] at h
    · obtain rfl := findExecutionWithAccess_ok hfa
      simp only [bind, Except.bind, Pure.pure, Except.pure, throw, throwThe,
        MonadExcept.throw, MonadExceptOf.throw, Functor.map, Except.map] at h
      split at h
      · exact Except.noConfusion h
      · obtain rfl := (Except.ok.inj h).symm
        rfl
  · intro e uid resp e' h
    unfold submitAnswer at h
    rcases hfa : findExecutionWithAccess (some e) uid with er | x <;> rw [hfa] at h
    · simp [bind, Except.bind] at h
    · obtain rfl := findExecutionWithAccess_ok hfa
      simp only [bind, Except.bind, Pure.pure, Except.pure, throw, throwThe,
        MonadExcept.throw, MonadExceptOf.throw, Functor.map, Except.map] at h
      split at h
      · exact Except.noConfusion h
      · obtain rfl := (Except.ok.inj h).symm
        simp
  · intro eidu uidu v upd v' h
    unfold V2.submitAnswer at h
    rcases h1 : V2.safeBigInt eidu with er | n1 <;> rw [h1] at h
    · simp [bind, Except.bind] at h
    rcases h2 : V2.safeBigInt uidu with er | n2 <;> rw [h2] at h
    · simp [bind, Except.bind] at h
    rcases h3 : V2.safeBigInt upd.question_id with er | n3 <;> rw [h3] at h
    · simp [bind, Except.bind] at h
    rcases hfa : V2.findTestExecutionWithAccess n1 n2 (some v) with er | x <;>
      simp only [bind, Except.bind] at h <;> rw [hfa] at h
    · exact Except.noConfusion h
    · have hx : x = v := by
        unfold V2.findTestExecutionWithAccess at hfa
        dsimp only at hfa
        split at hfa
        · exact Except.noConfusion hfa
        · exact (Except.ok.inj hfa).symm
      subst hx
      dsimp only at h
      split at h
      · simp only [throw, throwThe, MonadExceptOf.throw] at h
        exact Except.noConfusion h
      · split at h
        · simp only [throw, throwThe, MonadExceptOf.throw] at h
          exact Except.noConfusion h
        · simp only [Pure.pure, Except.pure] at h
          obtain rfl := (Except.ok.inj h).symm
          simp
  · intro eid uid v items endTime now v' h
    unfold V2.submitAllAnswers at h
    rcases hfa : V2.findTestExecutionWithAccess eid uid (some v) with er | x <;>
      simp only [bind, Except.bind] at h <;> rw [hfa] at h
    · exact Except.noConfusion h
    · have hx : x = v := by
        unfold V2.findTestExecutionWithAccess at hfa
        dsimp only at hfa
        split at hfa
        · exact Except.noConfusion hfa
        · exact (Except.ok.inj hfa).symm
      subst hx
      simp only [bind, Except.bind, Pure.pure, Except.pure, throw, throwThe,
        MonadExcept.throw, MonadExceptOf.throw] at h
      split at h
      · exact Except.noConfusion h
      split at h
      · exact Except.noConfusion h
      split at h
      · exact Except.noConfusion h
      obtain rfl := (Except.ok.inj h).symm
      simp

/-- Witness for C7 (amended) at the concrete creation and start. -/
theorem responses_invariant_witness :
    c7Created.execution_test_data.responses.map (fun r => r.question_id) =
      c7Created.execution_test_data.questions.map (fun q => q.question_id) ∧
    c7Created.execution_test_data.responses.length =
      c7Created.execution_test_data.questions.length ∧
    c7Exec1.test_data = c7Exec0.test_data := by
  obtain ⟨hc, hstart, -, -, -, -, -, -⟩ := responses_invariant_amended
  obtain ⟨h1, h2, -⟩ := hc (fun l => l) c7Pool c7Config c7Created rfl
  exact ⟨h1, h2, hstart c7Exec0 7 50 c7Exec1 rfl⟩

/-- Tier `i`'s count in the default 3-tier split of `total`. -/
def defaultTierCount (total i : Int) : Int :=
  total / 3 + if i ≤ total % 3 then 1 else 0

/-- One bucket's fetch inside `selectQuestions`. -/
def bucketFetch (pool : List PoolQuestion) (subtopics : List Int) (d count : Int) :
    List PoolQuestion :=
  filterQuestions pool d count.toNat 0 subtopics.head?

theorem distributeQuestions_three (total : Int) (h : 0 ≤ total) :
    distributeQuestions total = .ok
      [(1, defaultTierCount total 1), (2, defaultTierCount total 2),
       (3, defaultTierCount total 3)] := by
  unfold distributeQuestions defaultTierCount
  rw [if_neg (by omega)]
  dsimp only
  rw [show List.range (Int.toNat (max 1 (min 3 5))) = [0, 1, 2] from rfl]
  simp only [List.map_cons, List.map_nil]
  norm_num

theorem validateQuestionDistribution_iff (l : List (Int × Int)) :
    validateQuestionDistribution l = true ↔
      (∀ kv ∈ l, 1 ≤ kv.1 ∧ kv.1 ≤ 5 ∧ 0 ≤ kv.2) ∧ 0 < (l.map Prod.snd).sum := by
  unfold validateQuestionDistribution
  simp [List.all_eq_true, and_assoc]

theorem selectQuestions_eval (pool : List PoolQuestion) (qc : List (String × Int))
    (subtopics : List Int) (hpos : 0 < (qc.map Prod.snd).sum) :
    selectQuestions pool qc subtopics = .ok
      (bucketFetch pool subtopics 1 (defaultTierCount ((qc.map Prod.snd).sum) 1) ++
       bucketFetch pool subtopics 2 (defaultTierCount ((qc.map Prod.snd).sum) 2) ++
       bucketFetch pool subtopics 3 (defaultTierCount ((qc.map Prod.snd).sum) 3)) := by
  have h0 : 0 ≤ (qc.map Prod.snd).sum := le_of_lt hpos
  have hval : validateQuestionDistribution
      [(1, defaultTierCount ((qc.map Prod.snd).sum) 1),
       (2, defaultTierCount ((qc.map Prod.snd).sum) 2),
       (3, defaultTierCount ((qc.map Prod.snd).sum) 3)] = true := by
    rw [validateQuestionDistribution_iff]
    constructor
    · intro kv hkv
      simp only [List.mem_cons, List.not_mem_nil, or_false] at hkv
      rcases hkv with rfl | rfl | rfl <;>
        refine ⟨by norm_num, by norm_num, ?_⟩ <;>
        unfold defaultTierCount <;> split_ifs <;> omega
    · simp only [List.map_cons, List.map_nil, List.sum_cons, List.sum_nil]
      unfold defaultTierCount
      split_ifs <;> omega
  unfold selectQuestions
  dsimp only
  rw [distributeQuestions_three _ h0]
  simp only [bind, Except.bind, hval, Bool.not_true, Bool.false_eq_true, if_false,
    List.foldl_cons, List.foldl_nil, List.nil_append, Pure.pure, Except.pure]
  simp [bucketFetch, List.append_assoc]
/-- **C10.**  Any configuration whose raw question counts sum to zero is
rejected by the distribution validator: plan creation fails with
`ValidationError "Invalid question distribution"` before anything is
persisted (the embedding persists only on the `.ok` path), so a
zero-question plan or execution snapshot can never be created through
this flow. -/
theorem createTestPlan_zero_total (shuffle : List PoolQuestion → List PoolQuestion)
    (pool : List PoolQuestion) (data : TestPlanConfig)
    (h : ((data.questionCounts.map Prod.snd).sum) = 0) :
    selectQuestions pool data.questionCounts data.subtopics =
      .error (.validationError "Invalid question distribution") ∧
    createTestPlan shuffle pool data =
      .error (.validationError "Invalid question distribution") := by
  have hsel : selectQuestions pool data.questionCounts data.subtopics =
      .error (.validationError "Invalid question distribution") := by
    unfold selectQuestions
    rw [h]
    rfl
  refine ⟨hsel, ?_⟩
  unfold createTestPlan
  rw [hsel]
  simp [bind, Except.bind]

/-- A configuration whose counts sum to zero. -/
def c10Config : TestPlanConfig :=
  { topics := [], subtopics := [], questionCounts := [("EASY", 0)] }

/-- Witness for C10 at a concrete zero-count configuration. -/
theorem createTestPlan_zero_total_witness :
    createTestPlan (fun l => l) [] c10Config =
      .error (.validationError "Invalid question distribution") :=
  (createTestPlan_zero_total (fun l => l) [] c10Config rfl).2

/-- The per-bucket predicate `filterQuestions` applies for bucket `d`
with the configuration's subtopics. -/
def bucketPred (subtopics : List Int) (d : Int) (q : PoolQuestion) : Bool :=
  q.active
    && (match subtopics.head? with
        | some s => if s = 0 then true else q.subtopic_id == s
        | none => true)
    && (if d = 0 then true else q.difficulty_level == d)

theorem bucketFetch_eq (pool : List PoolQuestion) (subtopics : List Int) (d count : Int) :
    bucketFetch pool subtopics d count =
      (pool.filter (bucketPred subtopics d)).take count.toNat := by
  unfold bucketFetch filterQuestions bucketPred
  rw [List.drop_zero]

/-- The abort message of `createTestPlan`, with the found and needed
counts interpolated. -/
def insufficientMsg (found : Nat) (needed : Int) : String :=
  s!"Not enough questions available. Found {found}, needed {needed}"

/-- **C4 (amended).**  When the resolved counts sum to the raw total (as
in the difficulty-keyed and default paths) and some difficulty bucket of
the target distribution has fewer matching active pool questions than its
tier count, `createTestPlan` aborts before persisting anything — but with
a `ValidationError` whose message carries the found and needed counts,
not an `InsufficientQuestionsError` (no such class exists in the code). -/
theorem createTestPlan_insufficient_aborts (shuffle : List PoolQuestion → List PoolQuestion)
    (pool : List PoolQuestion) (data : TestPlanConfig)
    (hres : ((resolveQuestionCounts data.topics data.questionCounts).map Prod.snd).sum =
            (data.questionCounts.map Prod.snd).sum)
    (hpos : 0 < (data.questionCounts.map Prod.snd).sum)
    (hshort : ∃ d ∈ ([1, 2, 3] : List Int),
      ((pool.filter (bucketPred data.subtopics d)).length : Int) <
        defaultTierCount ((data.questionCounts.map Prod.snd).sum) d) :
    ∃ m : Nat, (m : Int) < (data.questionCounts.map Prod.snd).sum ∧
      createTestPlan shuffle pool data =
        .error (.validationError
          (insufficientMsg m ((data.questionCounts.map Prod.snd).sum))) := by
  have hsel := selectQuestions_eval pool data.questionCounts data.subtopics hpos
  rw [bucketFetch_eq, bucketFetch_eq, bucketFetch_eq] at hsel
  set T := (data.questionCounts.map Prod.snd).sum with hT
  set F1 := (pool.filter (bucketPred data.subtopics 1)) with hF1
  set F2 := (pool.filter (bucketPred data.subtopics 2)) with hF2
  set F3 := (pool.filter (bucketPred data.subtopics 3)) with hF3
  set L := F1.take (defaultTierCount T 1).toNat ++ F2.take (defaultTierCount T 2).toNat ++
    F3.take (defaultTierCount T 3).toNat with hL
  have hlen : (L.length : Int) < T := by
    obtain ⟨d, hd, hlt⟩ := hshort
    have hlen1 : (F1.take (defaultTierCount T 1).toNat).length =
        min (defaultTierCount T 1).toNat F1.length := List.length_take _ _
    have hlen2 : (F2.take (defaultTierCount T 2).toNat).length =
        min (defaultTierCount T 2).toNat F2.length := List.length_take _ _
    have hlen3 : (F3.take (defaultTierCount T 3).toNat).length =
        min (defaultTierCount T 3).toNat F3.length := List.length_take _ _
    have hsum : defaultTierCount T 1 + defaultTierCount T 2 + defaultTierCount T 3 = T := by
      unfold defaultTierCount
      split_ifs <;> omega
    have hn1 : 0 ≤ defaultTierCount T 1 := by
      unfold defaultTierCount
      split_ifs <;> omega
    have hn2 : 0 ≤ defaultTierCount T 2 := by
      unfold defaultTierCount
      split_ifs <;> omega
    have hn3 : 0 ≤ defaultTierCount T 3 := by
      unfold defaultTierCount
      split_ifs <;> omega
    rw [hL]
    simp only [List.length_append, hlen1, hlen2, hlen3]
    fin_cases hd
    · rw [← hF1] at hlt
      push_cast
      omega
    · rw [← hF2] at hlt
      push_cast
      omega
    · rw [← hF3] at hlt
      push_cast
      omega
  refine ⟨L.length, hlen, ?_⟩
  unfold createTestPlan
  dsimp only
  rw [hres, hsel]
  simp only [bind, Except.bind, ← hT, ← hL]
  rw [if_pos (by exact_mod_cast hlen)]
  simp [throw, throwThe, MonadExceptOf.throw, insufficientMsg]

/-- A configuration requesting one question. -/
def c4Config : TestPlanConfig :=
  { topics := [], subtopics := [], questionCounts := [("EASY", 1)] }

/-- **C4 (counterexample).**  With an empty pool and one requested
question, creation aborts with `ValidationError`, not the claimed
`InsufficientQuestionsError`. -/
theorem createTestPlan_short_is_validation_error :
    createTestPlan (fun l => l) [] c4Config =
      .error (.validationError "Not enough questions available. Found 0, needed 1") := rfl

/-- A pool with a single level-1 question. -/
def c4wPool : List PoolQuestion :=
  [{ question_id := 1, subtopic_id := 1, question_text := "t",
     options := [⟨"A", true⟩], difficulty_level := 1 }]

/-- A configuration requesting two questions. -/
def c4wConfig : TestPlanConfig :=
  { topics := [], subtopics := [], questionCounts := [("EASY", 2)] }

/-- Witness for C4 (amended): a pool with one level-1 question cannot
satisfy a 2-question request (tier 2 is short). -/
theorem createTestPlan_insufficient_witness :
    ∃ m : Nat, (m : Int) < 2 ∧
      createTestPlan (fun l => l) c4wPool c4wConfig =
        .error (.validationError (insufficientMsg m 2)) := by
  have h := createTestPlan_insufficient_aborts (fun l => l) c4wPool c4wConfig rfl (by decide)
    ⟨2, by decide, by decide⟩
  exact h

/-- **C5.**  If every difficulty bucket of the target distribution has at
least its tier count of matching active questions (and the pool carries no
duplicate identifiers, the shuffle being a permutation), `createTestPlan`
succeeds and the execution snapshot contains exactly the requested total
of question snapshots with pairwise distinct question identifiers. -/
theorem createTestPlan_completeness (shuffle : List PoolQuestion → List PoolQuestion)
    (pool : List PoolQuestion) (data : TestPlanConfig)
    (hshuffle : ∀ l, (shuffle l).Perm l)
    (hnodup : (pool.map (fun q => q.question_id)).Nodup)
    (hres : ((resolveQuestionCounts data.topics data.questionCounts).map Prod.snd).sum =
            (data.questionCounts.map Prod.snd).sum)
    (hpos : 0 < (data.questionCounts.map Prod.snd).sum)
    (hav : ∀ d ∈ ([1, 2, 3] : List Int),
      defaultTierCount ((data.questionCounts.map Prod.snd).sum) d ≤
        ((pool.filter (bucketPred data.subtopics d)).length : Int)) :
    ∃ plan, createTestPlan shuffle pool data = .ok plan ∧
      (plan.execution_test_data.questions.length : Int) =
        (data.questionCounts.map Prod.snd).sum ∧
      (plan.execution_test_data.questions.map (fun q => q.question_id)).Nodup := by
  have hsel := selectQuestions_eval pool data.questionCounts data.subtopics hpos
  rw [bucketFetch_eq, bucketFetch_eq, bucketFetch_eq] at hsel
  set T := (data.questionCounts.map Prod.snd).sum with hT
  set F1 := (pool.filter (bucketPred data.subtopics 1)) with hF1
  set F2 := (pool.filter (bucketPred data.subtopics 2)) with hF2
  set F3 := (pool.filter (bucketPred data.subtopics 3)) with hF3
  set c1 := defaultTierCount T 1 with hc1
  set c2 := defaultTierCount T 2 with hc2
  set c3 := defaultTierCount T 3 with hc3
  set L := F1.take c1.toNat ++ F2.take c2.toNat ++ F3.take c3.toNat with hL
  have hsum : c1 + c2 + c3 = T := by
    rw [hc1, hc2, hc3]
    unfold defaultTierCount
    split_ifs <;> omega
  have hn1 : 0 ≤ c1 := by
    rw [hc1]; unfold defaultTierCount; split_ifs <;> omega
  have hn2 : 0 ≤ c2 := by
    rw [hc2]; unfold defaultTierCount; split_ifs <;> omega
  have hn3 : 0 ≤ c3 := by
    rw [hc3]; unfold defaultTierCount; split_ifs <;> omega
  have hav1 : c1 ≤ (F1.length : Int) := by
    have := hav 1 (by norm_num); rw [← hF1, ← hc1] at this; exact this
  have hav2 : c2 ≤ (F2.length : Int) := by
    have := hav 2 (by norm_num); rw [← hF2, ← hc2] at this; exact this
  have hav3 : c3 ≤ (F3.length : Int) := by
    have := hav 3 (by norm_num); rw [← hF3, ← hc3] at this; exact this
  have hLlen : (L.length : Int) = T := by
    rw [hL]
    simp only [List.length_append, List.length_take]
    push_cast
    omega
  -- no-duplicate identifiers in L
  have hinj : ∀ x ∈ pool, ∀ y ∈ pool, x.question_id = y.question_id → x = y :=
    List.inj_on_of_nodup_map hnodup
  have hsub1 : List.Sublist (F1.take c1.toNat) pool :=
    (List.take_sublist _ _).trans (List.filter_sublist pool)
  have hsub2 : List.Sublist (F2.take c2.toNat) pool :=
    (List.take_sublist _ _).trans (List.filter_sublist pool)
  have hsub3 : List.Sublist (F3.take c3.toNat) pool :=
    (List.take_sublist _ _).trans (List.filter_sublist pool)
  have hdiff : ∀ (d : Int), d ≠ 0 → ∀ x ∈ pool.filter (bucketPred data.subtopics d),
      x.difficulty_level = d := by
    intro d hd0 x hx
    have hp := List.of_mem_filter hx
    unfold bucketPred at hp
    rw [if_neg hd0] at hp
    simp only [Bool.and_eq_true, beq_iff_eq] at hp
    exact hp.2
  have hnd1 : ((F1.take c1.toNat).map (fun q => q.question_id)).Nodup :=
    hnodup.sublist (hsub1.map _)
  have hnd2 : ((F2.take c2.toNat).map (fun q => q.question_id)).Nodup :=
    hnodup.sublist (hsub2.map _)
  have hnd3 : ((F3.take c3.toNat).map (fun q => q.question_id)).Nodup :=
    hnodup.sublist (hsub3.map _)
  have hdisj : ∀ (i j : Int), i ≠ 0 → j ≠ 0 → i ≠ j → ∀ (ci cj : Nat),
      List.Disjoint
        (((pool.filter (bucketPred data.subtopics i)).take ci).map (fun q => q.question_id))
        (((pool.filter (bucketPred data.subtopics j)).take cj).map (fun q => q.question_id)) := by
    intro i j hi0 hj0 hij ci cj a ha hb
    obtain ⟨x, hx, hxa⟩ := List.mem_map.mp ha
    obtain ⟨y, hy, hya⟩ := List.mem_map.mp hb
    have hxf : x ∈ pool.filter (bucketPred data.subtopics i) :=
      (List.take_sublist _ _).subset hx
    have hyf : y ∈ pool.filter (bucketPred data.subtopics j) :=
      (List.take_sublist _ _).subset hy
    have hxp : x ∈ pool := (List.filter_sublist pool).subset hxf
    have hyp2 : y ∈ pool := (List.filter_sublist pool).subset hyf
    have hxy : x = y := hinj x hxp y hyp2 (hxa.trans hya.symm)
    have hdx := hdiff i hi0 x hxf
    have hdy := hdiff j hj0 y hyf
    rw [hxy] at hdx
    rw [hdx] at hdy
    exact hij hdy
  have hLnd : (L.map (fun q => q.question_id)).Nodup := by
    rw [hL, List.map_append, List.map_append, List.nodup_append, List.nodup_append]
    refine ⟨⟨hnd1, hnd2, ?_⟩, hnd3, ?_⟩
    · exact hF2 ▸ hF1 ▸ hdisj 1 2 (by norm_num) (by norm_num) (by norm_num) _ _
    · rw [List.disjoint_append_left]
      constructor
      · exact hF3 ▸ hF1 ▸ hdisj 1 3 (by norm_num) (by norm_num) (by norm_num) _ _
      · exact hF3 ▸ hF2 ▸ hdisj 2 3 (by norm_num) (by norm_num) (by norm_num) _ _
  -- run createTestPlan
  have hLn : L.length = T.toNat := by omega
  have hrun : createTestPlan shuffle pool data = .ok
      { questionCounts := resolveQuestionCounts data.topics data.questionCounts,
        execution_status := .NOT_STARTED,
        execution_test_data := {
          questions := (selectRandomQuestions shuffle L T.toNat).map (fun q =>
            { question_id := .num q.question_id, subtopic_id := .num q.subtopic_id,
              question_text := .str q.question_text, options := q.options,
              difficulty_level := .num q.difficulty_level }),
          responses := (selectRandomQuestions shuffle L T.toNat).map (fun q =>
            { question_id := .num q.question_id, student_answer := .null,
              is_correct := .null, time_spent := .num 0 }) } } := by
    unfold createTestPlan
    dsimp only
    rw [hres, hsel]
    simp only [bind, Except.bind]
    rw [if_neg (by omega)]
    rfl
  have hRQlen : (selectRandomQuestions shuffle L T.toNat).length = T.toNat := by
    unfold selectRandomQuestions
    rw [List.length_take, (hshuffle L).length_eq, hLn]
    omega
  have hRQids : ((selectRandomQuestions shuffle L T.toNat).map
      (fun q => q.question_id)).Nodup := by
    have hperm : ((shuffle L).map (fun q => q.question_id)).Perm
        (L.map (fun q => q.question_id)) := (hshuffle L).map _
    have hnds : ((shuffle L).map (fun q => q.question_id)).Nodup :=
      hperm.nodup_iff.mpr hLnd
    have hsub : List.Sublist
        (((shuffle L).take T.toNat).map (fun q => q.question_id))
        ((shuffle L).map (fun q => q.question_id)) := (List.take_sublist _ _).map _
    exact hnds.sublist hsub
  refine ⟨_, hrun, ?_, ?_⟩
  · simp only [List.length_map, hRQlen]
    omega
  · simp only [List.map_map]
    have heq : ((selectRandomQuestions shuffle L T.toNat).map
        ((fun (q : QuesRec) => q.question_id) ∘ (fun q =>
          ({ question_id := .num q.question_id, subtopic_id := .num q.subtopic_id,
             question_text := .str q.question_text, options := q.options,
             difficulty_level := .num q.difficulty_level } : QuesRec)))) =
        ((selectRandomQuestions shuffle L T.toNat).map
          (fun q => q.question_id)).map JsVal.num := by
      rw [List.map_map]
      rfl
    rw [heq]
    exact hRQids.map (fun a b h => JsVal.num.inj h)

/-- A pool with one question per difficulty tier. -/
def c5Pool : List PoolQuestion :=
  [{ question_id := 1, subtopic_id := 1, question_text := "a",
     options := [⟨"A", true⟩], difficulty_level := 1 },
   { question_id := 2, subtopic_id := 1, question_text := "b",
     options := [⟨"B", true⟩], difficulty_level := 2 },
   { question_id := 3, subtopic_id := 1, question_text := "c",
     options := [⟨"C", true⟩], difficulty_level := 3 }]

/-- A configuration requesting three questions. -/
def c5Config : TestPlanConfig :=
  { topics := [], subtopics := [], questionCounts := [("EASY", 3)] }

/-- Witness for C5: a 3-question pool exactly covers a 3-question
request. -/
theorem createTestPlan_completeness_witness :
    ∃ plan, createTestPlan (fun l => l) c5Pool c5Config = .ok plan ∧
      (plan.execution_test_data.questions.length : Int) = 3 ∧
      (plan.execution_test_data.questions.map (fun q => q.question_id)).Nodup :=
  createTestPlan_completeness (fun l => l) c5Pool c5Config (fun l => List.Perm.refl l) (by decide)
    rfl (by decide) (by decide)

end Lvnplus
